import Mathlib

/-!
# Verification of `add_icon_padding.py`

A shallow embedding of the repository's single source file,
`src/add_icon_padding.py`, which adds transparent padding around an image.

The Python arithmetic is embedded exactly: `padding_percent` is an exact
rational, `int(...)` is truncation toward zero (`pyInt`), and all dimension
arithmetic is over `ℤ`.  Images are records of width, height and a total
pixel function; the PIL primitives used by the script (`Image.new`, `paste`
with an alpha mask, `resize`) are modelled at the level of detail the
script relies on.  `resize` (PIL's Lanczos resampler, not part of this
repository) is kept as an explicit function parameter: the script only
relies on the fact that resizing to `(w, h)` yields an image of size
`(w, h)`, so theorems quantify over any dimension-correct resampler.
-/

namespace GitVault

/-- One RGBA pixel; channels are naturals (intended range 0..255). -/
structure RGBA where
  r : ℕ
  g : ℕ
  b : ℕ
  a : ℕ
  deriving DecidableEq, Repr

/-- An in-memory RGBA image: dimensions plus a total pixel function
(the value outside the `width × height` rectangle is irrelevant).
The script converts any non-RGBA input with `img.convert('RGBA')`
before all further processing, so the embedding works with RGBA
images throughout. -/
structure Img where
  width : ℕ
  height : ℕ
  pixel : ℕ → ℕ → RGBA

/-- The fully transparent pixel `(0, 0, 0, 0)`. -/
def transparent : RGBA := ⟨0, 0, 0, 0⟩

/-- Python's `int()` applied to an exact rational value: truncation toward
zero (`int(2.7) = 2`, `int(-0.5) = 0`). -/
def pyInt (q : ℚ) : ℤ := if 0 ≤ q then ⌊q⌋ else ⌈q⌉

/-- `padding_x = int(old_width * padding_percent / 100)` from the source. -/
def padding_x (img : Img) (p : ℚ) : ℤ := pyInt ((img.width : ℚ) * p / 100)

/-- `padding_y = int(old_height * padding_percent / 100)` from the source. -/
def padding_y (img : Img) (p : ℚ) : ℤ := pyInt ((img.height : ℚ) * p / 100)

/-- `new_width = old_width + (2 * padding_x)` from the source. -/
def new_width (img : Img) (p : ℚ) : ℤ := img.width + 2 * padding_x img p

/-- `new_height = old_height + (2 * padding_y)` from the source. -/
def new_height (img : Img) (p : ℚ) : ℤ := img.height + 2 * padding_y img p

/-- `content_width = new_width - (2 * padding_x)` from the source. -/
def content_width (img : Img) (p : ℚ) : ℤ := new_width img p - 2 * padding_x img p

/-- `content_height = new_height - (2 * padding_y)` from the source. -/
def content_height (img : Img) (p : ℚ) : ℤ := new_height img p - 2 * padding_y img p

/-- `Image.new('RGBA', (w, h), (0, 0, 0, 0))`: a canvas of the given size
with every pixel fully transparent. -/
def imageNew (w h : ℕ) : Img := ⟨w, h, fun _ _ => transparent⟩

/-- Per-channel blend used by PIL's `paste` with an alpha mask: each output
band is `(src * a + dst * (255 - a)) / 255` where `a` is the mask value
(here the source's own alpha band). -/
def blend (dst src : RGBA) : RGBA :=
  ⟨(src.r * src.a + dst.r * (255 - src.a)) / 255,
   (src.g * src.a + dst.g * (255 - src.a)) / 255,
   (src.b * src.a + dst.b * (255 - src.a)) / 255,
   (src.a * src.a + dst.a * (255 - src.a)) / 255⟩

/-- `canvas.paste(src, (ox, oy), src)`: pixels inside the rectangle
`[ox, ox + src.width) × [oy, oy + src.height)` are blended with the pasted
image using its own alpha band as mask; every pixel outside that rectangle
is left untouched.  The canvas dimensions are unchanged. -/
def paste (canvas src : Img) (ox oy : ℕ) : Img :=
  ⟨canvas.width, canvas.height, fun x y =>
    if ox ≤ x ∧ x < ox + src.width ∧ oy ≤ y ∧ y < oy + src.height then
      blend (canvas.pixel x y) (src.pixel (x - ox) (y - oy))
    else canvas.pixel x y⟩

/-- The successful computation path of `add_padding` from the source:
allocate the transparent canvas at the new size, resize the input to the
content size with the supplied resampler, and paste it at offset
`(padding_x, padding_y)` with its own alpha as mask.  (`Int.toNat` is the
identity on the dimensions whenever they are non-negative; the guards of
`addPaddingChecked` restrict it to exactly that situation.) -/
def add_padding (resize : Img → ℕ → ℕ → Img) (img : Img) (p : ℚ) : Img :=
  paste (imageNew (new_width img p).toNat (new_height img p).toNat)
        (resize img (content_width img p).toNat (content_height img p).toNat)
        (padding_x img p).toNat (padding_y img p).toNat

/-- `add_padding` with the failure behaviour of the PIL primitives it calls:
`Image.new` and `resize` raise `ValueError` when asked for a negative
dimension (the script itself performs no validation of
`padding_percent`, so those library checks are the only guards).
Modelled from the spec: the PIL library is not part of `src/`. -/
def addPaddingChecked (resize : Img → ℕ → ℕ → Img) (img : Img) (p : ℚ) :
    Except String Img :=
  if 0 ≤ new_width img p ∧ 0 ≤ new_height img p then
    if 0 ≤ content_width img p ∧ 0 ≤ content_height img p then
      Except.ok (add_padding resize img p)
    else Except.error "height and width must be >= 0"
  else Except.error "width and height must be >= 0"

/-- The hardcoded input path of the `__main__` block. -/
def inputFile : String := "assets/icon/gitvault.png"

/-- The hardcoded output path of the `__main__` block. -/
def outputFile : String := "assets/icon/gitvault_padded.png"

/-- A filesystem: decoded image content per path (`none` = no file). -/
def FS : Type := String → Option Img

/-- The four success lines `add_padding` prints to standard output. -/
def successLines (outPath : String) (oldW oldH nW nH : ℕ) (p : ℚ)
    (px py : ℤ) : List String :=
  ["✓ Created padded icon: " ++ outPath,
   "  Original size: " ++ toString oldW ++ "x" ++ toString oldH,
   "  New size: " ++ toString nW ++ "x" ++ toString nH,
   "  Padding: " ++ toString p ++ "% (" ++ toString px ++ "px horizontal, "
     ++ toString py ++ "px vertical)"]

/-- One run of `add_padding(input_path, output_path, padding_percent)`
including its file I/O: open the input (a missing file raises before
anything else runs), transform, then save to the output path and print.
On any error the filesystem is unchanged, because the save is the last
step.  Returns the new filesystem and the printed lines on success, the
exception message on failure. -/
def addPaddingRun (resize : Img → ℕ → ℕ → Img) (fs : FS)
    (inPath outPath : String) (p : ℚ) : Except String (FS × List String) :=
  match fs inPath with
  | none =>
      Except.error ("[Errno 2] No such file or directory: '" ++ inPath ++ "'")
  | some img =>
      match addPaddingChecked resize img p with
      | Except.error e => Except.error e
      | Except.ok out =>
          Except.ok
            (fun s => if s = outPath then some out else fs s,
             successLines outPath img.width img.height out.width out.height p
               (padding_x img p) (padding_y img p))

/-- Observable outcome of one process run: final filesystem, the lines
printed to standard output and to standard error, and the exit status. -/
structure ProcResult where
  fs : FS
  stdout : List String
  stderr : List String
  exitCode : ℕ

/-- The `__main__` block: call `add_padding` with the hardcoded paths and
`padding_percent=20`; on an exception, `print(f"Error: {e}")` — which
writes to standard output, not standard error — then `sys.exit(1)`;
otherwise the process ends normally with status 0. -/
def mainModel (resize : Img → ℕ → ℕ → Img) (fs : FS) : ProcResult :=
  match addPaddingRun resize fs inputFile outputFile 20 with
  | Except.ok (fs2, lines) => ⟨fs2, lines, [], 0⟩
  | Except.error e => ⟨fs, ["Error: " ++ e], [], 1⟩

/-- Modelled from the spec: a concrete stand-in for PIL's `resize` with the
Lanczos filter, which is library code not in `src/`.  The spec fixes only
that resizing to `(content_width, content_height)` yields an image of
exactly that size; pixel values produced by the resampling filter are
never relied on, so a dimension-correct nearest-neighbour sampler serves
as the representative wherever a closed instance is required.  Theorems
that depend on resampling quantify over any dimension-correct resampler
instead. -/
def modelResize (im : Img) (w h : ℕ) : Img :=
  ⟨w, h, fun x y => im.pixel (x * im.width / max w 1) (y * im.height / max h 1)⟩

/-- A 512×512 fully opaque black test image. -/
def img512 : Img := ⟨512, 512, fun _ _ => ⟨0, 0, 0, 255⟩⟩

/-- A 100×100 fully opaque black test image. -/
def img100 : Img := ⟨100, 100, fun _ _ => ⟨0, 0, 0, 255⟩⟩

/-- A 100×200 fully opaque test image (the spec's Scenario 2 shape). -/
def img100x200 : Img := ⟨100, 200, fun _ _ => ⟨0, 0, 0, 255⟩⟩

/-- The empty filesystem: no file exists at any path. -/
def emptyFS : FS := fun _ => none

/-! ## Basic lemmas about the padding arithmetic -/

theorem pyInt_eq_floor {q : ℚ} (h : 0 ≤ q) : pyInt q = ⌊q⌋ := if_pos h

theorem padding_x_eq_floor (img : Img) {p : ℚ} (hp : 0 ≤ p) :
    padding_x img p = ⌊(img.width : ℚ) * p / 100⌋ :=
  pyInt_eq_floor (by positivity)

theorem padding_y_eq_floor (img : Img) {p : ℚ} (hp : 0 ≤ p) :
    padding_y img p = ⌊(img.height : ℚ) * p / 100⌋ :=
  pyInt_eq_floor (by positivity)

theorem padding_x_nonneg (img : Img) {p : ℚ} (hp : 0 ≤ p) :
    0 ≤ padding_x img p := by
  rw [padding_x_eq_floor img hp]
  exact Int.floor_nonneg.mpr (by positivity)

theorem padding_y_nonneg (img : Img) {p : ℚ} (hp : 0 ≤ p) :
    0 ≤ padding_y img p := by
  rw [padding_y_eq_floor img hp]
  exact Int.floor_nonneg.mpr (by positivity)

theorem new_width_nonneg (img : Img) {p : ℚ} (hp : 0 ≤ p) :
    0 ≤ new_width img p := by
  have := padding_x_nonneg img hp
  unfold new_width; positivity

theorem new_height_nonneg (img : Img) {p : ℚ} (hp : 0 ≤ p) :
    0 ≤ new_height img p := by
  have := padding_y_nonneg img hp
  unfold new_height; positivity

theorem content_width_eq (img : Img) (p : ℚ) :
    content_width img p = img.width := by
  unfold content_width new_width; ring

theorem content_height_eq (img : Img) (p : ℚ) :
    content_height img p = img.height := by
  unfold content_height new_height; ring

/-- The output image always has the canvas dimensions, independent of the
resampler: `paste` preserves the canvas size. -/
theorem add_padding_width (resize : Img → ℕ → ℕ → Img) (img : Img) (p : ℚ) :
    (add_padding resize img p).width = (new_width img p).toNat := rfl

theorem add_padding_height (resize : Img → ℕ → ℕ → Img) (img : Img) (p : ℚ) :
    (add_padding resize img p).height = (new_height img p).toNat := rfl

/-- For non-negative percentages the output width satisfies the floor
formula of the spec. -/
theorem add_padding_width_formula (resize : Img → ℕ → ℕ → Img) (img : Img)
    {p : ℚ} (hp : 0 ≤ p) :
    ((add_padding resize img p).width : ℤ)
      = (img.width : ℤ) + 2 * ⌊(img.width : ℚ) * p / 100⌋ := by
  rw [add_padding_width, Int.toNat_of_nonneg (new_width_nonneg img hp),
    new_width, padding_x_eq_floor img hp]

theorem add_padding_height_formula (resize : Img → ℕ → ℕ → Img) (img : Img)
    {p : ℚ} (hp : 0 ≤ p) :
    ((add_padding resize img p).height : ℤ)
      = (img.height : ℤ) + 2 * ⌊(img.height : ℚ) * p / 100⌋ := by
  rw [add_padding_height, Int.toNat_of_nonneg (new_height_nonneg img hp),
    new_height, padding_y_eq_floor img hp]

/-- For non-negative percentages none of the library size checks fire. -/
theorem addPaddingChecked_eq_ok (resize : Img → ℕ → ℕ → Img) (img : Img)
    {p : ℚ} (hp : 0 ≤ p) :
    addPaddingChecked resize img p = Except.ok (add_padding resize img p) := by
  unfold addPaddingChecked
  rw [if_pos ⟨new_width_nonneg img hp, new_height_nonneg img hp⟩,
    if_pos ⟨by rw [content_width_eq]; exact_mod_cast Nat.zero_le _,
            by rw [content_height_eq]; exact_mod_cast Nat.zero_le _⟩]

/-- The once-padded image is at least as wide as the input (helper). -/
theorem width_le_add_padding (resize : Img → ℕ → ℕ → Img) (img : Img)
    {p : ℚ} (hp : 0 ≤ p) :
    img.width ≤ (add_padding resize img p).width := by
  have h := add_padding_width_formula resize img hp
  have hf : 0 ≤ ⌊(img.width : ℚ) * p / 100⌋ := Int.floor_nonneg.mpr (by positivity)
  omega

/-- The once-padded image is at least as tall as the input (helper). -/
theorem height_le_add_padding (resize : Img → ℕ → ℕ → Img) (img : Img)
    {p : ℚ} (hp : 0 ≤ p) :
    img.height ≤ (add_padding resize img p).height := by
  have h := add_padding_height_formula resize img hp
  have hf : 0 ≤ ⌊(img.height : ℚ) * p / 100⌋ := Int.floor_nonneg.mpr (by positivity)
  omega

/-! ## Claim theorems -/

/-- C1: for every input image of size W×H and every padding percentage
`p ≥ 0`, `add_padding` runs without error and produces an output of size
`(W + 2*floor(W*p/100), H + 2*floor(H*p/100))`, the two paddings computed
independently per axis; the truncation `int(...)` coincides with the
mathematical floor on these non-negative values. -/
theorem c1_output_size_formula (resize : Img → ℕ → ℕ → Img) (img : Img)
    (p : ℚ) (hp : 0 ≤ p) :
    addPaddingChecked resize img p = Except.ok (add_padding resize img p) ∧
    ((add_padding resize img p).width : ℤ)
      = (img.width : ℤ) + 2 * ⌊(img.width : ℚ) * p / 100⌋ ∧
    ((add_padding resize img p).height : ℤ)
      = (img.height : ℤ) + 2 * ⌊(img.height : ℚ) * p / 100⌋ :=
  ⟨addPaddingChecked_eq_ok resize img hp,
   add_padding_width_formula resize img hp,
   add_padding_height_formula resize img hp⟩

/-- Witness for C1 at the spec's Scenario 2 input: a 100×200 image with
`p = 15` (output 130×260). -/
theorem c1_output_size_formula_witness :
    (0 : ℚ) ≤ 15 ∧
    (addPaddingChecked modelResize img100x200 15
        = Except.ok (add_padding modelResize img100x200 15) ∧
     ((add_padding modelResize img100x200 15).width : ℤ)
       = (img100x200.width : ℤ) + 2 * ⌊(img100x200.width : ℚ) * 15 / 100⌋ ∧
     ((add_padding modelResize img100x200 15).height : ℤ)
       = (img100x200.height : ℤ) + 2 * ⌊(img100x200.height : ℚ) * 15 / 100⌋) :=
  ⟨by decide, c1_output_size_formula modelResize img100x200 15 (by decide)⟩

/-- C3: for every dimension-correct resampler, every input and every
`p > 0`, each output pixel whose horizontal distance from the left or
right edge is below `padding_x`, or whose vertical distance from the top
or bottom edge is below `padding_y`, is fully transparent (alpha = 0):
`paste` never touches the canvas outside the content rectangle, and the
canvas starts out all `(0,0,0,0)`. -/
theorem c3_border_transparent (resize : Img → ℕ → ℕ → Img)
    (hres : ∀ im w h, (resize im w h).width = w ∧ (resize im w h).height = h)
    (img : Img) (p : ℚ) (hp : 0 < p) (x y : ℕ)
    (hx : x < (add_padding resize img p).width)
    (hy : y < (add_padding resize img p).height)
    (hborder :
      x < (padding_x img p).toNat ∨
      (add_padding resize img p).width - 1 - x < (padding_x img p).toNat ∨
      y < (padding_y img p).toNat ∨
      (add_padding resize img p).height - 1 - y < (padding_y img p).toNat) :
    ((add_padding resize img p).pixel x y).a = 0 := by
  have hpx := padding_x_nonneg img hp.le
  have hpy := padding_y_nonneg img hp.le
  have hW : (add_padding resize img p).width
      = img.width + 2 * (padding_x img p).toNat := by
    rw [add_padding_width]; unfold new_width; omega
  have hH : (add_padding resize img p).height
      = img.height + 2 * (padding_y img p).toNat := by
    rw [add_padding_height]; unfold new_height; omega
  have hcW : (content_width img p).toNat = img.width := by
    rw [content_width_eq]; omega
  have hcH : (content_height img p).toNat = img.height := by
    rw [content_height_eq]; omega
  have hrW := (hres img (content_width img p).toNat (content_height img p).toNat).1
  have hrH := (hres img (content_width img p).toNat (content_height img p).toNat).2
  rw [hW] at hx hborder
  rw [hH] at hy hborder
  show ((paste _ _ _ _).pixel x y).a = 0
  rw [paste]
  dsimp only
  rw [hrW, hrH, hcW, hcH]
  split
  · rename_i hin
    exfalso
    omega
  · rfl

/-- Witness for C3: on a 100×100 input with `p = 50` the corner pixel
`(0, 0)` of the 200×200 output is fully transparent. -/
theorem c3_border_transparent_witness :
    0 < (padding_x img100 50).toNat ∧
    ((add_padding modelResize img100 50).pixel 0 0).a = 0 :=
  ⟨by norm_num [padding_x, pyInt, img100],
   c3_border_transparent modelResize (fun _ _ _ => ⟨rfl, rfl⟩) img100 50
     (by decide) 0 0
     (by norm_num [add_padding_width, new_width, padding_x, pyInt, img100])
     (by norm_num [add_padding_height, new_height, padding_y, pyInt, img100])
     (Or.inl (by norm_num [padding_x, pyInt, img100]))⟩

/-- C4: with `padding_percent = 0` the output has exactly the input's
dimensions, for every input image and every resampler. -/
theorem c4_zero_padding_size_identity (resize : Img → ℕ → ℕ → Img)
    (img : Img) :
    (add_padding resize img 0).width = img.width ∧
    (add_padding resize img 0).height = img.height := by
  have hw := add_padding_width_formula resize img (le_refl (0 : ℚ))
  have hh := add_padding_height_formula resize img (le_refl (0 : ℚ))
  simp only [mul_zero, zero_div, Int.floor_zero, mul_zero, add_zero] at hw hh
  exact ⟨by omega, by omega⟩

/-- C5: a 512×512 input with `padding_percent = 20` yields exactly a
716×716 output (`padding_x = padding_y = floor(512*20/100) = 102`,
`512 + 204 = 716`), and in particular not 768×768. -/
theorem c5_scenario1_716 :
    padding_x img512 20 = 102 ∧
    (add_padding modelResize img512 20).width = 716 ∧
    (add_padding modelResize img512 20).height = 716 ∧
    (add_padding modelResize img512 20).width ≠ 768 := by
  have h1 : padding_x img512 20 = 102 := by
    norm_num [padding_x, pyInt, img512]
  have h2 : padding_y img512 20 = 102 := by
    norm_num [padding_y, pyInt, img512]
  have hw : (add_padding modelResize img512 20).width = 716 := by
    rw [add_padding_width]; unfold new_width; rw [h1]
    norm_num [img512]
    rfl
  have hh : (add_padding modelResize img512 20).height = 716 := by
    rw [add_padding_height]; unfold new_height; rw [h2]
    norm_num [img512]
    rfl
  exact ⟨h1, hw, hh, by omega⟩

/-- C7: the transform is not idempotent.  For any input and `p ≥ 0` with
`floor(W*p/100) > 0` or `floor(H*p/100) > 0`, a second application of
`add_padding` to the once-padded output again enlarges each axis by
`2*floor(new_dimension*p/100)` — so the padding doubles relative to the
once-padded image — and the result is strictly larger on at least one
axis, not an image of the same size. -/
theorem c7_not_idempotent (resize : Img → ℕ → ℕ → Img) (img : Img) (p : ℚ)
    (hp : 0 ≤ p)
    (hpos : 0 < padding_x img p ∨ 0 < padding_y img p) :
    ((add_padding resize (add_padding resize img p) p).width : ℤ)
      = ((add_padding resize img p).width : ℤ)
        + 2 * ⌊((add_padding resize img p).width : ℚ) * p / 100⌋ ∧
    ((add_padding resize (add_padding resize img p) p).height : ℤ)
      = ((add_padding resize img p).height : ℤ)
        + 2 * ⌊((add_padding resize img p).height : ℚ) * p / 100⌋ ∧
    ((add_padding resize img p).width
        < (add_padding resize (add_padding resize img p) p).width ∨
     (add_padding resize img p).height
        < (add_padding resize (add_padding resize img p) p).height) := by
  refine ⟨add_padding_width_formula resize (add_padding resize img p) hp,
          add_padding_height_formula resize (add_padding resize img p) hp, ?_⟩
  rcases hpos with hx | hy
  · left
    rw [padding_x_eq_floor img hp] at hx
    have hmono : ⌊(img.width : ℚ) * p / 100⌋
        ≤ ⌊((add_padding resize img p).width : ℚ) * p / 100⌋ := by
      apply Int.floor_le_floor
      have hle : (img.width : ℚ) ≤ ((add_padding resize img p).width : ℚ) :=
        Nat.cast_le.mpr (width_le_add_padding resize img hp)
      gcongr
    have h2 := add_padding_width_formula resize (add_padding resize img p) hp
    omega
  · right
    rw [padding_y_eq_floor img hp] at hy
    have hmono : ⌊(img.height : ℚ) * p / 100⌋
        ≤ ⌊((add_padding resize img p).height : ℚ) * p / 100⌋ := by
      apply Int.floor_le_floor
      have hle : (img.height : ℚ) ≤ ((add_padding resize img p).height : ℚ) :=
        Nat.cast_le.mpr (height_le_add_padding resize img hp)
      gcongr
    have h2 := add_padding_height_formula resize (add_padding resize img p) hp
    omega

/-- Witness for C7 at a 100×100 input with `p = 20`: 100 → 140 → 196. -/
theorem c7_not_idempotent_witness :
    ((0 : ℚ) ≤ 20 ∧ (0 < padding_x img100 20 ∨ 0 < padding_y img100 20)) ∧
    (((add_padding modelResize (add_padding modelResize img100 20) 20).width : ℤ)
       = ((add_padding modelResize img100 20).width : ℤ)
         + 2 * ⌊((add_padding modelResize img100 20).width : ℚ) * 20 / 100⌋ ∧
     ((add_padding modelResize (add_padding modelResize img100 20) 20).height : ℤ)
       = ((add_padding modelResize img100 20).height : ℤ)
         + 2 * ⌊((add_padding modelResize img100 20).height : ℚ) * 20 / 100⌋ ∧
     ((add_padding modelResize img100 20).width
         < (add_padding modelResize (add_padding modelResize img100 20) 20).width ∨
      (add_padding modelResize img100 20).height
         < (add_padding modelResize (add_padding modelResize img100 20) 20).height)) :=
  ⟨⟨by decide, Or.inl (by norm_num [padding_x, pyInt, img100])⟩,
   c7_not_idempotent modelResize img100 20 (by decide)
     (Or.inl (by norm_num [padding_x, pyInt, img100]))⟩

/-- C9: for every input and every `p ≥ 0` the output dimensions are at
least the input dimensions — the operation never shrinks an image under
its documented precondition. -/
theorem c9_never_shrinks (resize : Img → ℕ → ℕ → Img) (img : Img) (p : ℚ)
    (hp : 0 ≤ p) :
    img.width ≤ (add_padding resize img p).width ∧
    img.height ≤ (add_padding resize img p).height :=
  ⟨width_le_add_padding resize img hp, height_le_add_padding resize img hp⟩

/-- Witness for C9 at a 512×512 input with `p = 20`. -/
theorem c9_never_shrinks_witness :
    (0 : ℚ) ≤ 20 ∧
    (img512.width ≤ (add_padding modelResize img512 20).width ∧
     img512.height ≤ (add_padding modelResize img512 20).height) :=
  ⟨by decide, c9_never_shrinks modelResize img512 20 (by decide)⟩

/-- C2 counterexample: with no input file present, the process does exit
with status 1 and prints exactly one `Error: <message>` line — but that
line goes to standard output while standard error stays empty, because
the handler is `print(f"Error: {e}")`, a plain `print` to stdout.  This
refutes the claim that the line is printed to standard error and not to
standard output. -/
theorem c2_stream_counterexample :
    (mainModel modelResize emptyFS).exitCode = 1 ∧
    (mainModel modelResize emptyFS).stderr = [] ∧
    (mainModel modelResize emptyFS).stdout
      = ["Error: " ++
          ("[Errno 2] No such file or directory: '" ++ inputFile ++ "'")] :=
  ⟨rfl, rfl, rfl⟩

/-- C2 (amended): on any exception during processing the process prints
exactly one line `Error: <message>` to standard output (standard error
stays empty) and exits with status 1; on success it exits with status 0
and standard error stays empty. -/
theorem c2_error_line_and_exit_codes (resize : Img → ℕ → ℕ → Img) (fs : FS) :
    (∀ e, addPaddingRun resize fs inputFile outputFile 20 = Except.error e →
       mainModel resize fs = ⟨fs, ["Error: " ++ e], [], 1⟩) ∧
    (∀ r, addPaddingRun resize fs inputFile outputFile 20 = Except.ok r →
       mainModel resize fs = ⟨r.1, r.2, [], 0⟩) := by
  constructor
  · intro e he
    unfold mainModel
    rw [he]
  · intro r hr
    unfold mainModel
    rw [hr]

/-- Witness for the amended C2: the concrete failing run on the empty
filesystem. -/
theorem c2_error_line_and_exit_codes_witness :
    mainModel modelResize emptyFS
      = ⟨emptyFS,
         ["Error: " ++
           ("[Errno 2] No such file or directory: '" ++ inputFile ++ "'")],
         [], 1⟩ :=
  (c2_error_line_and_exit_codes modelResize emptyFS).1 _ rfl

/-- C6: when the input file is missing the run raises at the very first
step (`Image.open`), so the process exits with status 1 after printing an
`Error:` line, and the filesystem — in particular the output path — is
unchanged: the save only happens after a successful decode. -/
theorem c6_missing_input_no_write (resize : Img → ℕ → ℕ → Img) (fs : FS)
    (h : fs inputFile = none) :
    (mainModel resize fs).exitCode = 1 ∧
    (mainModel resize fs).stdout
      = ["Error: " ++
          ("[Errno 2] No such file or directory: '" ++ inputFile ++ "'")] ∧
    (mainModel resize fs).fs = fs ∧
    (mainModel resize fs).fs outputFile = fs outputFile := by
  have hrun : addPaddingRun resize fs inputFile outputFile 20
      = Except.error
          ("[Errno 2] No such file or directory: '" ++ inputFile ++ "'") := by
    unfold addPaddingRun
    rw [h]
  unfold mainModel
  rw [hrun]
  exact ⟨rfl, rfl, rfl, rfl⟩

/-- Witness for C6: the empty filesystem has no input file, and the run
leaves it untouched. -/
theorem c6_missing_input_no_write_witness :
    emptyFS inputFile = none ∧
    ((mainModel modelResize emptyFS).exitCode = 1 ∧
     (mainModel modelResize emptyFS).stdout
       = ["Error: " ++
           ("[Errno 2] No such file or directory: '" ++ inputFile ++ "'")] ∧
     (mainModel modelResize emptyFS).fs = emptyFS ∧
     (mainModel modelResize emptyFS).fs outputFile = emptyFS outputFile) :=
  ⟨rfl, c6_missing_input_no_write modelResize emptyFS rfl⟩

/-- C8: for every input and every percentage the content region
dimensions `(new_width - 2*padding_x, new_height - 2*padding_y)` equal
exactly `(old_width, old_height)` — the integer arithmetic cancels
exactly, so the spec's ±1 pixel allowance is never exercised and the
image is resized to its own original size. -/
theorem c8_content_region_exact (img : Img) (p : ℚ) :
    content_width img p = img.width ∧ content_height img p = img.height :=
  ⟨content_width_eq img p, content_height_eq img p⟩

/-- C10: `add_padding` itself never validates `padding_percent` — the
embedding contains no check of `p` — and for the negative percentage
`p = -60` on a 100×100 input the computed canvas size is negative
(`padding_x = int(100 * -60 / 100) = -60`, `new_width = -20`), so the
canvas allocation's own size check raises and the error branch is
reached outside the documented non-negativity precondition. -/
theorem c10_negative_padding_errors :
    padding_x img100 (-60) = -60 ∧
    new_width img100 (-60) = -20 ∧
    addPaddingChecked modelResize img100 (-60)
      = Except.error "width and height must be >= 0" := by
  have h1 : padding_x img100 (-60) = -60 := by
    unfold padding_x pyInt
    rw [if_neg (by norm_num [img100]),
      show ((img100.width : ℚ) * (-60) / 100) = ((-60 : ℤ) : ℚ) from by
        norm_num [img100]]
    exact Int.ceil_intCast (-60)
  have h2 : new_width img100 (-60) = -20 := by
    unfold new_width
    rw [h1]
    norm_num [img100]
  refine ⟨h1, h2, ?_⟩
  unfold addPaddingChecked
  rw [if_neg]
  intro hcon
  rw [h2] at hcon
  exact absurd hcon.1 (by norm_num)

end GitVault
